import Mathlib

/-!
Verification development for the `rust_utilities` repository, centred on the
three-part TUI / externalized-input-buffer subsystem.  The Rust sources are
shallowly embedded: the filesystem view seen by a single scan is passed
explicitly, machine integers become `Nat` with `% 2^64` where overflow
matters, and process-level effects (info-bar writes, `process::exit`) are
recorded in explicit state records.
-/

namespace RustUtilities

/-! ## Modal TUI controller (`three_part_tui/src/main.rs`)

The controller owns a `Mode`, an input line buffer, the cached directory
listing and the last directory hash.  The on-disk directory, as observed by
one successful scan, is abstracted as `FsView`: `scan` is the sorted entry
list `scan_directory` would return and `hash` the value
`calculate_directory_hash` would return at that moment.  (I/O errors are not
modelled: every claim here is about the success path.) -/

/-- `Mode` from `main.rs`: `Refresh` or `Insert`. -/
inductive Mode where
  | Refresh
  | Insert
deriving DecidableEq, Repr

/-- One consistent observation of the watched directory: the entry listing
`scan_directory "."` would produce and the digest `calculate_directory_hash "."`
would produce at the same instant. -/
structure FsView where
  scan : List String
  hash : Nat
deriving DecidableEq, Repr

/-- `struct App` from `main.rs` (the terminal dimensions play no role in any
claim and are omitted; they only pad the rendered output). -/
structure App where
  mode : Mode
  input_buffer : String
  files : List String
  last_hash : Nat
deriving DecidableEq, Repr

/-- `App::toggle_mode`: swap the mode, returning the previous mode. -/
def App.toggle_mode (app : App) : Mode × App :=
  let previous_mode := app.mode
  let new_mode := match app.mode with
    | Mode.Refresh => Mode.Insert
    | Mode.Insert => Mode.Refresh
  (previous_mode, { app with mode := new_mode })

/-- `App::update_directory_list`: recompute the directory hash; when it
differs from `last_hash`, rescan and record the new hash, reporting `true`;
otherwise leave the state alone and report `false`. -/
def App.update_directory_list (fs : FsView) (app : App) : App × Bool :=
  let current_hash := fs.hash
  if current_hash ≠ app.last_hash then
    ({ app with files := fs.scan, last_hash := current_hash }, true)
  else
    (app, false)

/-- `App::force_update_directory_list`: rescan unconditionally and store the
fresh hash, bypassing the fingerprint comparison. -/
def App.force_update_directory_list (fs : FsView) (app : App) : App :=
  { app with files := fs.scan, last_hash := fs.hash }

/-- `enum Message` from `main.rs`. -/
inductive Message where
  | Input (c : Char)
  | Backspace
  | Enter
  | Refresh
  | Quit
deriving DecidableEq, Repr

/-- Whether the main loop keeps running after a message (`break` in Rust). -/
inductive Ctl where
  | cont
  | exitLoop
deriving DecidableEq, Repr

/-- One `rx.try_recv()` arm of the main loop in `main.rs` (lines 402–457):
given the current directory observation, the app state and the current
`force_refresh` flag, process one message, returning the new app state, the
new `force_refresh` flag and whether the loop `break`s. -/
def processMessage (fs : FsView) (app : App) (force_refresh : Bool) :
    Message → App × Bool × Ctl
  | Message.Input c =>
      if app.mode = Mode.Insert ∨ force_refresh = false then
        ({ app with input_buffer := app.input_buffer.push c }, true, Ctl.cont)
      else
        (app, force_refresh, Ctl.cont)
  | Message.Backspace =>
      ({ app with input_buffer := app.input_buffer.dropRight 1 }, true, Ctl.cont)
  | Message.Enter =>
      if app.input_buffer.isEmpty then
        let (previous_mode, app') := app.toggle_mode
        if previous_mode = Mode.Insert ∧ app'.mode = Mode.Refresh then
          (app'.force_update_directory_list fs, true, Ctl.cont)
        else
          (app', true, Ctl.cont)
      else
        if app.input_buffer = "q" ∨ app.input_buffer = "quit" then
          (app, force_refresh, Ctl.exitLoop)
        else
          ({ app with input_buffer := "" }, true, Ctl.cont)
  | Message.Refresh =>
      if app.mode = Mode.Refresh then
        let (app', changed) := app.update_directory_list fs
        if changed then
          ({ app' with input_buffer := "" }, true, Ctl.cont)
        else
          (app', force_refresh, Ctl.cont)
      else
        (app, force_refresh, Ctl.cont)
  | Message.Quit =>
      (app, force_refresh, Ctl.exitLoop)

end RustUtilities

namespace RustUtilities

/-! ## ExternalizedInputBuffer
(`externalized_input_buffer/src/externalized_input_buffer/mod.rs`, active
code, and the identical-in-state copy in
`three_part_tui/src/externalized_input_buffer/mod.rs`; the latter differs
only by not printing the completed line).  The stdin byte consumed by one
`handle_char` call is passed explicitly; the mirror file's content is the
`file` field. -/

/-- The state of an `ExternalizedInputBuffer` together with the current
content of its mirror file at `buffer_file_path`. -/
structure ExternalizedInputBuffer where
  buffer : String
  show_cursor : Bool
  file : String
deriving DecidableEq, Repr

/-- The text `write_to_file` produces: the buffer, suffixed with the literal
cursor marker `"[]"` when `show_cursor` is set. -/
def mirrorContent (buffer : String) (show_cursor : Bool) : String :=
  if show_cursor then buffer ++ "[]" else buffer

/-- `ExternalizedInputBuffer::new`: starts with an empty buffer and writes
the empty string to the mirror file (`fs::write(&path, "")`), regardless of
`show_cursor`. -/
def ExternalizedInputBuffer.new (show_cursor : Bool) : ExternalizedInputBuffer :=
  { buffer := "", show_cursor := show_cursor, file := "" }

/-- `ExternalizedInputBuffer::write_to_file`: whole-file rewrite of the
mirror with the current buffer (plus cursor marker when enabled). -/
def ExternalizedInputBuffer.write_to_file
    (st : ExternalizedInputBuffer) : ExternalizedInputBuffer :=
  { st with file := mirrorContent st.buffer st.show_cursor }

/-- Rust `u8::is_ascii_graphic`: `'!'..='~'`, i.e. bytes 33–126. -/
def isAsciiGraphicByte (b : Nat) : Bool := 33 ≤ b && b ≤ 126

/-- `ExternalizedInputBuffer::handle_char` on one successfully read stdin
byte `b`: Enter (13 or 10) clears the buffer, rewrites the file and reports
`true`; backspace (127 or 8) pops the last character and rewrites; an ASCII
graphic byte or space is appended (`c as char`) and the file rewritten; any
other byte is ignored (no file write).  A failed read is simply the absence
of a call here. -/
def ExternalizedInputBuffer.handle_char
    (st : ExternalizedInputBuffer) (b : Nat) : ExternalizedInputBuffer × Bool :=
  if b = 13 ∨ b = 10 then
    (({ st with buffer := "" }).write_to_file, true)
  else if b = 127 ∨ b = 8 then
    (({ st with buffer := st.buffer.dropRight 1 }).write_to_file, false)
  else if isAsciiGraphicByte b || b = 32 then
    (({ st with buffer := st.buffer.push (Char.ofNat b) }).write_to_file, false)
  else
    (st, false)

/-- `ExternalizedInputBuffer::get_buffer`: the in-memory content. -/
def ExternalizedInputBuffer.get_buffer (st : ExternalizedInputBuffer) : String :=
  st.buffer

/-- A byte that drives an append (printable/space) or a backspace, the
operation alphabet of claim C4. -/
def isEditByte (b : Nat) : Bool :=
  (decide (b = 127) || decide (b = 8)) || (isAsciiGraphicByte b || decide (b = 32))

/-- Feed a sequence of stdin bytes through `handle_char`, keeping the state. -/
def applyBytes (st : ExternalizedInputBuffer) (bs : List Nat) :
    ExternalizedInputBuffer :=
  bs.foldl (fun s b => (s.handle_char b).1) st

end RustUtilities

namespace RustUtilities

/-! ## ThreePartTui (`three_part_tui/src/three_part_tui.rs`)

The struct's three mirror files under `tui_temp/` are carried as string
contents: `file_view` (`file_view.txt`), `info_bar` (`info_bar.txt`) and the
input mirror, which is `external_inputbuffer.file` (`input_buffer.txt`).
Terminal output (`display_all`) reads files and prints; it changes no
tracked state, so a tick only records whether it was invoked. -/

/-- `struct ThreePartTui` with the current contents of its mirror files. -/
structure ThreePartTui where
  external_inputbuffer : ExternalizedInputBuffer
  file_view : String
  info_bar : String
  last_file_view_len : Nat
  last_info_bar_len : Nat
  last_input_buffer_len : Nat
deriving DecidableEq, Repr

/-- `ThreePartTui::new`: removes any pre-existing `tui_temp/`, recreates it,
creates the three files empty, and builds the externalized buffer with
`show_cursor = true` (which rewrites `input_buffer.txt` empty); all cached
lengths start at 0. -/
def ThreePartTui.new : ThreePartTui :=
  { external_inputbuffer := ExternalizedInputBuffer.new true
    file_view := ""
    info_bar := ""
    last_file_view_len := 0
    last_info_bar_len := 0
    last_input_buffer_len := 0 }

/-- `ThreePartTui::update_info_bar_status`: whole-file rewrite of
`info_bar.txt` with the message plus a trailing newline. -/
def ThreePartTui.update_info_bar_status
    (st : ThreePartTui) (status_message : String) : ThreePartTui :=
  { st with info_bar := status_message ++ "\n" }

/-- Rust `char::is_whitespace` restricted to the ASCII range (every input
line here is ASCII). -/
def isRustWhitespace (c : Char) : Bool :=
  c == ' ' || c == '\t' || c == '\n' || c == '\r' || c == '\x0b' || c == '\x0c'

/-- Rust `str::trim`: strip leading and trailing whitespace. -/
def rustTrim (s : String) : String :=
  String.mk
    (((s.toList.dropWhile isRustWhitespace).reverse.dropWhile
        isRustWhitespace).reverse)

/-- Rust `str::to_lowercase` on ASCII text: map `'A'..='Z'` down by 32. -/
def rustToLower (s : String) : String :=
  String.mk
    (s.toList.map fun c =>
      if 65 ≤ c.toNat && c.toNat ≤ 90 then Char.ofNat (c.toNat + 32) else c)

/-- `ThreePartTui::generate_help_text`: the joined command list. -/
def generate_help_text : String :=
  "Available Commands:\n- exit/quit : Exit the program\n- clear    : Clear the file view\n- help     : Show this help message\n\nPress Enter after typing command"

/-- `ThreePartTui::process_completed_input`.  The second component is
`some code` when the arm calls `std::process::exit(code)` (the `exit`/`quit`
arm calls `exit(0)` after writing the status), `none` when the function
returns normally. -/
def ThreePartTui.process_completed_input
    (st : ThreePartTui) (input_line : String) : ThreePartTui × Option Nat :=
  let cleaned_input := rustToLower (rustTrim input_line)
  let st1 := st.update_info_bar_status ("Processing command: " ++ cleaned_input)
  if cleaned_input = "exit" ∨ cleaned_input = "quit" then
    (st1.update_info_bar_status "Exiting program...", some 0)
  else if cleaned_input = "clear" then
    (({ st1 with file_view := "" }).update_info_bar_status "Cleared file view",
      none)
  else if cleaned_input = "help" then
    (st1.update_info_bar_status generate_help_text, none)
  else if cleaned_input = "" then
    (st1.update_info_bar_status "Ready for input", none)
  else
    (st1.update_info_bar_status
      ("Unrecognized command: '" ++ cleaned_input
        ++ "'. Type 'help' for available commands."), none)

/-- `ThreePartTui::needs_refresh`: compare the current *byte lengths* of the
three mirror files against the cached lengths, report whether any differs,
and cache the new lengths. -/
def ThreePartTui.needs_refresh (st : ThreePartTui) : Bool × ThreePartTui :=
  let file_len := st.file_view.utf8ByteSize
  let info_len := st.info_bar.utf8ByteSize
  let input_len := st.external_inputbuffer.file.utf8ByteSize
  let needs_update :=
    (file_len != st.last_file_view_len)
      || (info_len != st.last_info_bar_len)
      || (input_len != st.last_input_buffer_len)
  (needs_update,
    { st with
        last_file_view_len := file_len
        last_info_bar_len := info_len
        last_input_buffer_len := input_len })

/-- The display half of one `run` loop iteration (`if self.needs_refresh()?
{ self.display_all()?; }`): the boolean is whether `display_all` was invoked
on this tick. -/
def ThreePartTui.runDisplayTick (st : ThreePartTui) : Bool × ThreePartTui :=
  st.needs_refresh

/-- The input half of one `run` loop iteration on one stdin byte: call
`handle_char`; when it reports Enter, read `get_buffer()` **after** that call
(the source clones the buffer only once `handle_char` has returned) and pass
it to `process_completed_input`. -/
def ThreePartTui.runInputStep
    (st : ThreePartTui) (b : Nat) : ThreePartTui × Option Nat :=
  let r := st.external_inputbuffer.handle_char b
  let st' := { st with external_inputbuffer := r.1 }
  if r.2 then
    st'.process_completed_input st'.external_inputbuffer.get_buffer
  else
    (st', none)

/-- Successive `run` iterations' input halves over a byte sequence, stopping
if some arm calls `process::exit`.  (The interleaved display ticks only
touch the cached lengths, never the buffer or the mirror contents, so they
are omitted here.) -/
def ThreePartTui.runInputBytes :
    ThreePartTui → List Nat → ThreePartTui × Option Nat
  | st, [] => (st, none)
  | st, b :: bs =>
      match st.runInputStep b with
      | (st', some code) => (st', some code)
      | (st', none) => st'.runInputBytes bs

/-- Bool substring test: does `hay` contain `needle` as a contiguous run? -/
def strContains (hay needle : String) : Bool :=
  let h := hay.toList
  let n := needle.toList
  (List.range (h.length + 1)).any fun i => (h.drop i).take n.length == n

/-- The state right after `run` writes its startup status. -/
def tuiStarted : ThreePartTui :=
  ThreePartTui.new.update_info_bar_status "TUI Started - Ready for Input"

end RustUtilities

namespace RustUtilities

/-! ## Shutdown model for `ThreePartTui`

Rust semantics relevant here: `std::process::exit` terminates the process
immediately and runs no destructors, while returning from `main` (including
`?`-propagation of an `io::Error` out of `run`) drops live values, running
`Drop for ThreePartTui`, whose body is `fs::remove_dir_all(&self.temp_dir)`
on `tui_temp/`. -/

/-- How the `three_part_tui` process can stop. -/
inductive ShutdownPath where
  | processExit (code : Nat)
  | unwindReturn
deriving DecidableEq, Repr

/-- Whether `Drop for ThreePartTui` runs on a given shutdown path:
`process::exit` bypasses destructors; an ordinary return runs them. -/
def dropRuns : ShutdownPath → Bool
  | ShutdownPath.processExit _ => false
  | ShutdownPath.unwindReturn => true

/-- After startup, `drop` is the only code that removes `tui_temp/`
(`fs::remove_dir_all` in the `Drop` impl), so the directory survives
shutdown exactly when `Drop` did not run. -/
def tempDirExistsAfterShutdown (p : ShutdownPath) : Bool := !(dropRuns p)

/-- The shutdown path caused by a `process_completed_input` outcome:
`some code` arose from `std::process::exit(code)`. -/
def shutdownPathOfOutcome : Option Nat → Option ShutdownPath
  | some code => some (ShutdownPath.processExit code)
  | none => none

/-- A started TUI whose file-view mirror lists two entries. -/
def tuiWithFiles : ThreePartTui :=
  { tuiStarted with file_view := "a.txt\nb.txt\n" }

/-- A TUI state whose cached lengths match its current mirror contents
(lengths 2, 3 and 3), as left by a previous `needs_refresh` tick. -/
def tuiCached : ThreePartTui :=
  { external_inputbuffer :=
      { buffer := "x", show_cursor := true, file := "x[]" }
    file_view := "a\n"
    info_bar := "ok\n"
    last_file_view_len := 2
    last_info_bar_len := 3
    last_input_buffer_len := 3 }

end RustUtilities

namespace RustUtilities

/-! ## Directory fingerprint (`calculate_directory_hash` in `main.rs`)

The Rust function feeds, for each `read_dir` entry in visit order, the file
name, `metadata.len()` and (when available) the modification time into one
`DefaultHasher` and returns `hasher.finish()`.  `DefaultHasher` is std's
SipHash-1-3 with both keys zero; it consumes a single byte stream, so the
digest is a function of the concatenated per-entry serializations *in visit
order*.  `sipHash13` below is byte-exact SipHash-1-3 over `Nat % 2^64`;
`entryHashBytes` models the std `Hash` protocol for the hashed fields
(length-prefixed name bytes, the length as 8 little-endian bytes, the
modification time's seconds as 8 little-endian bytes when present). -/

/-- Rotate a 64-bit word (a `Nat < 2^64`) left by `r`. -/
def rotl64 (x r : Nat) : Nat :=
  ((x <<< r) % 2 ^ 64) ||| (x >>> (64 - r))

/-- The four 64-bit lanes of a SipHash state. -/
structure SipState where
  v0 : Nat
  v1 : Nat
  v2 : Nat
  v3 : Nat
deriving DecidableEq, Repr

/-- One SipHash round. -/
def sipround (s : SipState) : SipState :=
  let v0 := (s.v0 + s.v1) % 2 ^ 64
  let v1 := rotl64 s.v1 13
  let v1 := v1 ^^^ v0
  let v0 := rotl64 v0 32
  let v2 := (s.v2 + s.v3) % 2 ^ 64
  let v3 := rotl64 s.v3 16
  let v3 := v3 ^^^ v2
  let v0 := (v0 + v3) % 2 ^ 64
  let v3 := rotl64 v3 21
  let v3 := v3 ^^^ v0
  let v2 := (v2 + v1) % 2 ^ 64
  let v1 := rotl64 v1 17
  let v1 := v1 ^^^ v2
  let v2 := rotl64 v2 32
  ⟨v0, v1, v2, v3⟩

/-- Absorb one 8-byte message word (SipHash-1-3: one round per word). -/
def sipCompress (s : SipState) (m : Nat) : SipState :=
  let s1 := { s with v3 := s.v3 ^^^ m }
  let s2 := sipround s1
  { s2 with v0 := s2.v0 ^^^ m }

/-- Little-endian value of a byte list. -/
def leVal : List Nat → Nat
  | [] => 0
  | b :: bs => b + 256 * leVal bs

/-- Split a byte stream into full 8-byte little-endian words plus a tail of
at most 7 bytes. -/
def toWords : List Nat → List Nat × List Nat
  | b0 :: b1 :: b2 :: b3 :: b4 :: b5 :: b6 :: b7 :: rest =>
      let r := toWords rest
      (leVal [b0, b1, b2, b3, b4, b5, b6, b7] :: r.1, r.2)
  | bs => ([], bs)

/-- SipHash-1-3 with both keys zero (std's `DefaultHasher`) over a byte
stream: one round per message word, the final word carrying the stream
length in its top byte, then `v2 ^= 0xff` and three finalization rounds. -/
def sipHash13 (bytes : List Nat) : Nat :=
  let init : SipState :=
    ⟨0x736f6d6570736575, 0x646f72616e646f6d,
      0x6c7967656e657261, 0x7465646279746573⟩
  let wt := toWords bytes
  let s := wt.1.foldl sipCompress init
  let b := ((bytes.length % 256) <<< 56) + leVal wt.2
  let s := sipCompress s b
  let s := { s with v2 := s.v2 ^^^ 0xff }
  let s := sipround (sipround (sipround s))
  s.v0 ^^^ s.v1 ^^^ s.v2 ^^^ s.v3

/-- One `read_dir` entry's hashed observation: file-name bytes, byte length
from the metadata, and the modification time (seconds) when available. -/
structure DirEntry where
  name : List Nat
  len : Nat
  modified : Option Nat
deriving DecidableEq, Repr

/-- `n` as 8 little-endian bytes (a `u64` write into the hasher). -/
def u64le (n : Nat) : List Nat :=
  [n % 256, (n >>> 8) % 256, (n >>> 16) % 256, (n >>> 24) % 256,
    (n >>> 32) % 256, (n >>> 40) % 256, (n >>> 48) % 256, (n >>> 56) % 256]

/-- The bytes one entry contributes to the hasher, per the std `Hash`
protocol: length-prefixed name bytes, then `metadata.len()`, then the
modification time when present (nothing when `metadata.modified()` erred). -/
def entryHashBytes (e : DirEntry) : List Nat :=
  u64le e.name.length ++ e.name ++ u64le e.len
    ++ (match e.modified with
        | some t => u64le t
        | none => [])

/-- The whole byte stream a scan feeds the hasher, in visit order. -/
def serializeEntries (es : List DirEntry) : List Nat :=
  (es.map entryHashBytes).flatten

/-- `calculate_directory_hash`: one `DefaultHasher` digest of the entries
as visited. -/
def calculate_directory_hash (entries : List DirEntry) : Nat :=
  sipHash13 (serializeEntries entries)

end RustUtilities

namespace RustUtilities

/-! ### Claims C1, C2, C3 about the controller -/

/-- C1: an `Enter` message with an empty input buffer while in `Insert`
mode toggles the mode to `Refresh` and performs an unconditional rescan: the
resulting listing and stored hash equal the current on-disk observation,
regardless of what the last stored fingerprint was. -/
theorem enter_from_insert_forces_full_rescan
    (fs : FsView) (app : App) (fr : Bool)
    (hmode : app.mode = Mode.Insert)
    (hbuf : app.input_buffer.isEmpty = true) :
    ((processMessage fs app fr Message.Enter).1.mode = Mode.Refresh) ∧
    ((processMessage fs app fr Message.Enter).1.files = fs.scan) ∧
    ((processMessage fs app fr Message.Enter).1.last_hash = fs.hash) := by
  simp [processMessage, hbuf, App.toggle_mode, hmode,
    App.force_update_directory_list]

/-- Witness for C1 at a concrete state. -/
theorem enter_from_insert_forces_full_rescan_witness :
    ((processMessage ⟨["a.txt"], 42⟩ ⟨Mode.Insert, "", ["old"], 7⟩ false
        Message.Enter).1.mode = Mode.Refresh) ∧
    ((processMessage ⟨["a.txt"], 42⟩ ⟨Mode.Insert, "", ["old"], 7⟩ false
        Message.Enter).1.files = ["a.txt"]) ∧
    ((processMessage ⟨["a.txt"], 42⟩ ⟨Mode.Insert, "", ["old"], 7⟩ false
        Message.Enter).1.last_hash = 42) :=
  enter_from_insert_forces_full_rescan ⟨["a.txt"], 42⟩
    ⟨Mode.Insert, "", ["old"], 7⟩ false rfl rfl

/-- C2, counterexample: in `Refresh` mode with non-empty buffer `"ab"`,
a `Refresh` message whose recomputed hash coincides with the stored
`last_hash` leaves the buffer untouched and the listing unreplaced — the
claim that the buffer is always cleared and the listing always replaced
fails at this state.  (Such deliveries are reachable: the watcher thread
keeps its own `last_hash`, initialised to `0`, so its very first tick sends
`Refresh` even for a directory unchanged since app startup.) -/
theorem refresh_in_refresh_mode_counterexample :
    ¬ (((processMessage ⟨["x"], 7⟩ ⟨Mode.Refresh, "ab", [], 7⟩ false
          Message.Refresh).1.input_buffer = "") ∧
       ((processMessage ⟨["x"], 7⟩ ⟨Mode.Refresh, "ab", [], 7⟩ false
          Message.Refresh).1.files = ["x"])) := by
  decide

/-- C2, amended: in `Refresh` mode, a `Refresh` message clears the input
buffer and replaces the listing *provided* the recomputed directory hash
differs from the controller's stored `last_hash`; the non-empty in-progress
input is discarded. -/
theorem refresh_in_refresh_mode_clears_buffer
    (fs : FsView) (app : App) (fr : Bool)
    (hmode : app.mode = Mode.Refresh)
    (hchanged : fs.hash ≠ app.last_hash) :
    ((processMessage fs app fr Message.Refresh).1.input_buffer = "") ∧
    ((processMessage fs app fr Message.Refresh).1.files = fs.scan) := by
  simp [processMessage, hmode, App.update_directory_list, hchanged]

/-- Witness for the amended C2 at a concrete state with buffer `"ab"`. -/
theorem refresh_in_refresh_mode_clears_buffer_witness :
    ((processMessage ⟨["x"], 8⟩ ⟨Mode.Refresh, "ab", [], 7⟩ false
        Message.Refresh).1.input_buffer = "") ∧
    ((processMessage ⟨["x"], 8⟩ ⟨Mode.Refresh, "ab", [], 7⟩ false
        Message.Refresh).1.files = ["x"]) :=
  refresh_in_refresh_mode_clears_buffer ⟨["x"], 8⟩ ⟨Mode.Refresh, "ab", [], 7⟩
    false rfl (by decide)

/-- C6: a `CharacterTyped` message appends the character unconditionally
in `Insert` mode; in `Refresh` mode it is appended exactly when the
`force_refresh` flag is clear at processing time (when the flag is set the
character is dropped). -/
theorem character_typed_append_behaviour
    (fs : FsView) (app : App) (fr : Bool) (c : Char) :
    (app.mode = Mode.Insert →
      (processMessage fs app fr (Message.Input c)).1.input_buffer
        = app.input_buffer.push c) ∧
    (app.mode = Mode.Refresh →
      (processMessage fs app fr (Message.Input c)).1.input_buffer
        = if fr then app.input_buffer else app.input_buffer.push c) := by
  constructor
  · intro hmode
    simp [processMessage, hmode]
  · intro hmode
    cases fr with
    | false => simp [processMessage]
    | true => simp [processMessage, hmode]

/-- Witness for C6: in `Refresh` mode with `force_refresh` set, a typed
character is dropped. -/
theorem character_typed_append_behaviour_witness :
    (processMessage ⟨["x"], 8⟩ ⟨Mode.Refresh, "ab", [], 7⟩ true
        (Message.Input 'z')).1.input_buffer = "ab" := by
  have h := (character_typed_append_behaviour ⟨["x"], 8⟩
    ⟨Mode.Refresh, "ab", [], 7⟩ true 'z').2 rfl
  simpa using h

/-- C9: mode toggling is its own inverse: from `Refresh` with an empty
buffer, two consecutive `Enter` messages (the buffer still empty in between,
which the first transition guarantees) return the controller to `Refresh`;
toggling twice restores any mode; and no message other than `Enter` ever
changes the mode. -/
theorem mode_toggle_involutive
    (fs fs' : FsView) (app : App) (fr fr' : Bool)
    (hmode : app.mode = Mode.Refresh)
    (hbuf : app.input_buffer.isEmpty = true) :
    ((processMessage fs app fr Message.Enter).1.input_buffer.isEmpty = true) ∧
    ((processMessage fs' (processMessage fs app fr Message.Enter).1 fr'
        Message.Enter).1.mode = Mode.Refresh) ∧
    (((app.toggle_mode.2).toggle_mode.2).mode = app.mode) ∧
    (∀ (c : Char), (processMessage fs app fr (Message.Input c)).1.mode = app.mode) ∧
    ((processMessage fs app fr Message.Backspace).1.mode = app.mode) ∧
    ((processMessage fs app fr Message.Refresh).1.mode = app.mode) ∧
    ((processMessage fs app fr Message.Quit).1.mode = app.mode) := by
  refine ⟨?_, ?_, ?_, ?_, ?_, ?_, ?_⟩
  · simp [processMessage, hbuf, App.toggle_mode, hmode]
  · simp [processMessage, hbuf, App.toggle_mode, hmode,
      App.force_update_directory_list]
  · cases app with
    | mk m b f h => cases m <;> simp [App.toggle_mode]
  · intro c
    by_cases hins : app.mode = Mode.Insert ∨ fr = false <;>
      simp [processMessage, hins]
  · simp [processMessage]
  · rw [hmode]
    by_cases hch : fs.hash ≠ app.last_hash <;>
      simp [processMessage, hmode, App.update_directory_list, hch]
  · simp [processMessage]

/-- Witness for C9 at a concrete state. -/
theorem mode_toggle_involutive_witness :
    ((processMessage ⟨["x"], 8⟩ ⟨Mode.Refresh, "", [], 7⟩ false
        Message.Enter).1.input_buffer.isEmpty = true) ∧
    ((processMessage ⟨["y"], 9⟩ (processMessage ⟨["x"], 8⟩
        ⟨Mode.Refresh, "", [], 7⟩ false Message.Enter).1 false
        Message.Enter).1.mode = Mode.Refresh) :=
  have h := mode_toggle_involutive ⟨["x"], 8⟩ ⟨["y"], 9⟩
    ⟨Mode.Refresh, "", [], 7⟩ false false rfl rfl
  ⟨h.1, h.2.1⟩

/-- C3: in `Insert` mode a `Refresh` message leaves the input buffer
exactly as it was (in fact the whole app state is untouched). -/
theorem refresh_in_insert_mode_preserves_buffer
    (fs : FsView) (app : App) (fr : Bool)
    (hmode : app.mode = Mode.Insert) :
    (processMessage fs app fr Message.Refresh).1.input_buffer
      = app.input_buffer := by
  simp [processMessage, hmode]

/-- Witness for C3 at a concrete state with buffer `"ab"`. -/
theorem refresh_in_insert_mode_preserves_buffer_witness :
    (processMessage ⟨["x"], 8⟩ ⟨Mode.Insert, "ab", [], 7⟩ false
        Message.Refresh).1.input_buffer = "ab" :=
  refresh_in_insert_mode_preserves_buffer ⟨["x"], 8⟩ ⟨Mode.Insert, "ab", [], 7⟩
    false rfl

end RustUtilities

namespace RustUtilities

theorem handle_char_show_cursor (st : ExternalizedInputBuffer) (b : Nat) :
    ((st.handle_char b).1).show_cursor = st.show_cursor := by
  unfold ExternalizedInputBuffer.handle_char
  split
  · rfl
  · split
    · rfl
    · split <;> rfl

theorem applyBytes_show_cursor (bs : List Nat) (st : ExternalizedInputBuffer) :
    (applyBytes st bs).show_cursor = st.show_cursor := by
  induction bs generalizing st with
  | nil => rfl
  | cons b t ih =>
      rw [applyBytes, List.foldl_cons]
      rw [show List.foldl (fun s b => (s.handle_char b).1) ((st.handle_char b).1) t
            = applyBytes ((st.handle_char b).1) t from rfl]
      rw [ih, handle_char_show_cursor]

theorem handle_char_edit_mirror (st : ExternalizedInputBuffer) (b : Nat)
    (h : isEditByte b = true) :
    ((st.handle_char b).1).file
      = mirrorContent ((st.handle_char b).1).buffer
          ((st.handle_char b).1).show_cursor := by
  unfold isEditByte at h
  unfold ExternalizedInputBuffer.handle_char
  split
  · rfl
  · split
    · rfl
    · split
      · rfl
      · rename_i h1 h2 h3
        exfalso
        simp only [Bool.or_eq_true, decide_eq_true_eq] at h h3
        rcases h with (h | h) | h
        · exact h2 (Or.inl h)
        · exact h2 (Or.inr h)
        · exact h3 h

end RustUtilities

namespace RustUtilities

/-- C4: starting from `new(path, show_cursor)`, after any (non-empty)
sequence of append (printable/space byte) and backspace operations applied
via `handle_char`, the mirror file's content equals exactly the in-memory
buffer content, suffixed with the literal `"[]"` when `show_cursor` is
true. -/
theorem mirror_file_matches_buffer
    (bs : List Nat) (sc : Bool)
    (hne : bs ≠ [])
    (hedit : ∀ b ∈ bs, isEditByte b = true) :
    (applyBytes (ExternalizedInputBuffer.new sc) bs).file
      = mirrorContent (applyBytes (ExternalizedInputBuffer.new sc) bs).buffer
          sc := by
  have key : ∀ (l : List Nat) (st : ExternalizedInputBuffer), l ≠ [] →
      (∀ b ∈ l, isEditByte b = true) →
      (applyBytes st l).file
        = mirrorContent (applyBytes st l).buffer (applyBytes st l).show_cursor := by
    intro l
    induction l with
    | nil => intro st h; exact absurd rfl h
    | cons b t ih =>
        intro st _ hall
        have hstep : applyBytes st (b :: t)
            = applyBytes ((st.handle_char b).1) t := rfl
        cases t with
        | nil =>
            rw [hstep]
            exact handle_char_edit_mirror st b (hall b (List.mem_cons_self b []))
        | cons b' t' =>
            rw [hstep]
            exact ih ((st.handle_char b).1) (by simp)
              (fun x hx => hall x (List.mem_cons_of_mem b hx))
  have h := key bs (ExternalizedInputBuffer.new sc) hne hedit
  rwa [applyBytes_show_cursor] at h

/-- Witness for C4: appending `'f'`, `'r'`, `'o'`, `'g'` then one backspace
with the cursor enabled yields in-memory `"fro"` and file `"fro[]"`. -/
theorem mirror_file_matches_buffer_witness :
    ((applyBytes (ExternalizedInputBuffer.new true)
        [102, 114, 111, 103, 127]).file
      = mirrorContent (applyBytes (ExternalizedInputBuffer.new true)
          [102, 114, 111, 103, 127]).buffer true) ∧
    ((applyBytes (ExternalizedInputBuffer.new true)
        [102, 114, 111, 103, 127]).buffer = "fro") ∧
    ((applyBytes (ExternalizedInputBuffer.new true)
        [102, 114, 111, 103, 127]).file = "fro[]") :=
  ⟨mirror_file_matches_buffer [102, 114, 111, 103, 127] true (by decide)
      (by decide),
    by decide, by decide⟩

end RustUtilities

namespace RustUtilities

/-- C5, counterexample: two scans observing the *same* two entries (the
lists are permutations of one another) but visiting them in opposite order
produce *different* fingerprints: the digest is fed the entries sequentially
through one stateful hasher and is therefore order-dependent, refuting
order-independence. -/
theorem fingerprint_order_dependent_counterexample :
    (([ DirEntry.mk [97] 1 none, DirEntry.mk [98] 2 none ] : List DirEntry).Perm
        [ DirEntry.mk [98] 2 none, DirEntry.mk [97] 1 none ]) ∧
    (calculate_directory_hash [ DirEntry.mk [97] 1 none, DirEntry.mk [98] 2 none ]
      ≠ calculate_directory_hash
          [ DirEntry.mk [98] 2 none, DirEntry.mk [97] 1 none ]) := by
  constructor
  · exact List.Perm.swap _ _ _
  · decide

/-- C5, amended: the fingerprint is a function of the byte stream the
visited entries feed the hasher in visit order: two scans observing the same
entries with the same metadata *in the same order* (more generally, with the
same serialized stream) yield equal fingerprints; in particular two
successive scans of an unmodified directory, enumerated identically, yield
equal values. -/
theorem fingerprint_function_of_visit_sequence
    (l1 l2 : List DirEntry)
    (h : serializeEntries l1 = serializeEntries l2) :
    calculate_directory_hash l1 = calculate_directory_hash l2 := by
  unfold calculate_directory_hash
  rw [h]

/-- Witness for the amended C5: two textually identical scans of the same
directory state agree. -/
theorem fingerprint_function_of_visit_sequence_witness :
    calculate_directory_hash [ DirEntry.mk [97] 1 none, DirEntry.mk [98] 2 none ]
      = calculate_directory_hash
          [ DirEntry.mk [97] 1 none, DirEntry.mk [98] 2 none ] :=
  fingerprint_function_of_visit_sequence
    [ DirEntry.mk [97] 1 none, DirEntry.mk [98] 2 none ]
    [ DirEntry.mk [97] 1 none, DirEntry.mk [98] 2 none ] rfl

set_option maxRecDepth 100000 in
/-- C7, divergence at the failing input: feeding the bytes of
`"help\n"` to the run loop never reaches the `help` arm: `handle_char`
clears the buffer *before* returning `true`, `run` then reads the
already-cleared buffer, and the empty string is what gets processed — the
info bar ends as `"Ready for input\n"` and never contains
`"Available Commands"`.  Meanwhile `process_completed_input` itself, called
directly as in the repository's own test, does satisfy all three dispatch
scenarios (`help` → `"Available Commands"`, `clear` → empty file view,
`bogus` → `"Unrecognized"`), showing the dispatch table is right and the
run-loop wiring is the slip. -/
theorem submitted_line_processed_as_empty :
    ((tuiStarted.runInputBytes [104, 101, 108, 112, 10]).2 = none) ∧
    ((tuiStarted.runInputBytes [104, 101, 108, 112, 10]).1.info_bar
        = "Ready for input\n") ∧
    (strContains (tuiStarted.runInputBytes [104, 101, 108, 112, 10]).1.info_bar
        "Available Commands" = false) ∧
    (strContains (tuiStarted.process_completed_input "help").1.info_bar
        "Available Commands" = true) ∧
    ((tuiWithFiles.process_completed_input "clear").1.file_view = "") ∧
    (strContains (tuiWithFiles.process_completed_input "bogus").1.info_bar
        "Unrecognized" = true) := by
  decide

/-- C8, divergence at the failing input: submitting `exit` (or `quit`)
reaches `std::process::exit(0)`, which terminates without running
destructors, so `Drop for ThreePartTui` — the only code that removes
`tui_temp/` after startup — never runs on this path and the directory
survives, contradicting "removed entirely on every clean shutdown path". -/
theorem exit_command_skips_drop_cleanup :
    ((tuiStarted.process_completed_input "exit").2 = some 0) ∧
    ((tuiStarted.process_completed_input "quit").2 = some 0) ∧
    (shutdownPathOfOutcome (tuiStarted.process_completed_input "exit").2
        = some (ShutdownPath.processExit 0)) ∧
    (dropRuns (ShutdownPath.processExit 0) = false) ∧
    (tempDirExistsAfterShutdown (ShutdownPath.processExit 0) = true) := by
  decide

/-- C10: redraw detection looks only at byte lengths: if each of the
three mirror files is replaced by (possibly different) content of exactly
the same byte length as the cached one, `needs_refresh` reports `false` and
`display_all` is not invoked on that tick. -/
theorem same_length_change_is_not_redrawn
    (st : ThreePartTui) (v i n : String)
    (hv : v.utf8ByteSize = st.last_file_view_len)
    (hi : i.utf8ByteSize = st.last_info_bar_len)
    (hn : n.utf8ByteSize = st.last_input_buffer_len)
    (_hdiff : v ≠ st.file_view ∨ i ≠ st.info_bar
        ∨ n ≠ st.external_inputbuffer.file) :
    (({ st with
          file_view := v
          info_bar := i
          external_inputbuffer :=
            { st.external_inputbuffer with file := n } } :
        ThreePartTui).needs_refresh.1 = false) ∧
    (({ st with
          file_view := v
          info_bar := i
          external_inputbuffer :=
            { st.external_inputbuffer with file := n } } :
        ThreePartTui).runDisplayTick.1 = false) := by
  have h : ({ st with
          file_view := v
          info_bar := i
          external_inputbuffer :=
            { st.external_inputbuffer with file := n } } :
        ThreePartTui).needs_refresh.1 = false := by
    simp [ThreePartTui.needs_refresh, hv, hi, hn]
  exact ⟨h, h⟩

/-- Witness for C10: the cached lengths match the new same-length contents,
so no redraw happens even though every file changed. -/
theorem same_length_change_is_not_redrawn_witness :
    (({ tuiCached with
          file_view := "b\n"
          info_bar := "no\n"
          external_inputbuffer :=
            { tuiCached.external_inputbuffer with file := "y[]" } } :
        ThreePartTui).needs_refresh.1 = false) ∧
    (({ tuiCached with
          file_view := "b\n"
          info_bar := "no\n"
          external_inputbuffer :=
            { tuiCached.external_inputbuffer with file := "y[]" } } :
        ThreePartTui).runDisplayTick.1 = false) :=
  same_length_change_is_not_redrawn tuiCached "b\n" "no\n" "y[]"
    (by decide) (by decide) (by decide) (Or.inl (by decide))

end RustUtilities
